import Mathlib

/-!
Verification of the theme-persistence and viewport-observer logic of the
portfolio single-page application (src/src/App.tsx).

The embedding models:
* the `useTheme` hook: the lazy initial-state resolver (lines 6-11) and the
  effect that applies the mode to the document root and storage (lines 13-22);
* the toggle handler (line 99): `setIsDark (v => !v)` followed by the effect;
* the observer effect (lines 40-67): the intersection callback over reveal
  targets and sections, and observer construction.

Thrown exceptions are modelled with `Except Unit`; the DOM classList is
modelled as the finite set of class tokens; intersection ratios are rationals.
-/

/-- The browser environment seen by the initial-state resolver:
whether `window` is defined, whether `localStorage` access works (it throws
in restricted contexts), the value stored under the "theme" key, whether
`matchMedia` works, and the preferred-color-scheme signal. -/
structure Env where
  windowDefined : Bool
  storageWorks : Bool
  stored : Option String
  matchMediaWorks : Bool
  prefersDark : Bool
deriving DecidableEq

/-- `localStorage.getItem("theme")`: returns the stored value, or throws when
storage is unavailable. -/
def getItem (e : Env) : Except Unit (Option String) :=
  if e.storageWorks then Except.ok e.stored else Except.error ()

/-- `window.matchMedia("(prefers-color-scheme: dark)").matches`, throwing when
the API is unavailable. -/
def matchMediaPrefersDark (e : Env) : Except Unit Bool :=
  if e.matchMediaWorks then Except.ok e.prefersDark else Except.error ()

/-- The lazy initializer of `useState` in `useTheme` (App.tsx lines 6-11):
```
if (typeof window === 'undefined') return false
const stored = localStorage.getItem('theme')
if (stored) return stored === 'dark'
return window.matchMedia('(prefers-color-scheme: dark)').matches
```
A JS string is truthy exactly when it is non-null and non-empty. -/
def resolveInitial (e : Env) : Except Unit Bool :=
  if e.windowDefined = false then Except.ok false
  else
    match getItem e with
    | Except.error u => Except.error u
    | Except.ok none => matchMediaPrefersDark e
    | Except.ok (some s) =>
        if s = "" then matchMediaPrefersDark e else Except.ok (s == "dark")

/-- The string written to storage for a mode (`isDark : Bool`). -/
def modeString (isDark : Bool) : String :=
  if isDark then "dark" else "light"

/-- Mutable document/storage state touched by the theme effect: the class
tokens on `document.documentElement` and the value under the "theme" key. -/
structure ThemeState where
  rootClasses : Finset String
  storage : Option String
deriving DecidableEq

/-- `classList.add`: inserts a token (no-op when already present). -/
def classListAdd (cs : Finset String) (c : String) : Finset String :=
  insert c cs

/-- `classList.remove`: removes a token. -/
def classListRemove (cs : Finset String) (c : String) : Finset String :=
  cs.erase c

/-- The body of the theme effect (App.tsx lines 13-22): add or remove the
"dark" class on the root and write the mode string to storage. -/
def applyTheme (isDark : Bool) (s : ThemeState) : ThemeState :=
  if isDark then
    { rootClasses := classListAdd s.rootClasses "dark", storage := some "dark" }
  else
    { rootClasses := classListRemove s.rootClasses "dark", storage := some "light" }

/-- The theme effect when `localStorage.setItem` may throw: with working
storage it behaves as `applyTheme`, otherwise the exception propagates out of
the effect. -/
def applyThemeE (storageWorks : Bool) (isDark : Bool) (s : ThemeState) :
    Except Unit ThemeState :=
  if storageWorks then Except.ok (applyTheme isDark s) else Except.error ()

/-- The toggle button handler `setIsDark (v => !v)` (App.tsx line 99) together
with the re-run of the theme effect: flips the mode and applies it. -/
def toggleTheme (isDark : Bool) (s : ThemeState) : Bool × ThemeState :=
  (!isDark, applyTheme (!isDark) s)

/-- `n` successive toggles, each followed by its effect run. -/
def runToggles : Nat → Bool → ThemeState → Bool × ThemeState
  | 0, m, s => (m, s)
  | n + 1, m, s => runToggles n (!m) (applyTheme (!m) s)

/-- The theme consistency invariant: the root carries the "dark" class iff the
mode is dark, and storage holds the mode string. -/
def ThemeInv (isDark : Bool) (s : ThemeState) : Prop :=
  ("dark" ∈ s.rootClasses ↔ isDark = true) ∧ s.storage = some (modeString isDark)

instance (m : Bool) (s : ThemeState) : Decidable (ThemeInv m s) := by
  unfold ThemeInv; infer_instance

/-- An element of the rendered page, as the observer callback inspects it:
tag name, `id` attribute (the empty string reflects a missing id, as in the
DOM `id` property), the `data-reveal` flag, and its class tokens. -/
structure Elem where
  tagName : String
  id : String
  dataReveal : Bool
  classes : Finset String
deriving DecidableEq

/-- Page state mutated by the observer callback: the elements and the
`active` React state (initially "hero"). -/
structure Page where
  elems : List Elem
  active : String
deriving DecidableEq

/-- One intersection entry: the observed element (by index into the page),
`isIntersecting`, and `intersectionRatio`. -/
structure VisEvent where
  idx : Nat
  isIntersecting : Bool
  visRatio : ℚ
deriving DecidableEq

/-- The reveal branch guard of the callback:
`target.hasAttribute('data-reveal')` and `entry.isIntersecting`. -/
def revealHit (el : Elem) (ev : VisEvent) : Bool :=
  el.dataReveal && ev.isIntersecting

/-- The active-section branch guard of the callback:
`target.tagName === 'SECTION' && target.id` and
`entry.isIntersecting && entry.intersectionRatio > 0.25`
(a JS string is truthy exactly when non-empty; `mkRat 1 4` is the exact
rational 0.25). -/
def sectionHit (el : Elem) (ev : VisEvent) : Bool :=
  el.tagName == "SECTION" && el.id != "" &&
    ev.isIntersecting && decide (ev.visRatio > mkRat 1 4)

/-- The per-entry body of the observer callback (App.tsx lines 47-57):
```
const target = entry.target as HTMLElement
if (target.hasAttribute('data-reveal')) {
  if (entry.isIntersecting) target.classList.add('show')
}
if (target.tagName === 'SECTION' && target.id) {
  if (entry.isIntersecting && entry.intersectionRatio > 0.25) {
    setActive(target.id as SectionId)
  }
}
``` -/
def processEntry (p : Page) (ev : VisEvent) : Page :=
  match p.elems[ev.idx]? with
  | none => p
  | some el =>
      { elems := p.elems.set ev.idx
          (if revealHit el ev then
            { el with classes := classListAdd el.classes "show" }
          else el),
        active := if sectionHit el ev then el.id else p.active }

/-- `entries.forEach(...)`: process one delivered batch in order. -/
def processBatch (p : Page) (evs : List VisEvent) : Page :=
  evs.foldl processEntry p

/-- Whether the element at index `i` currently carries the "show" class. -/
def isShown (p : Page) (i : Nat) : Bool :=
  match p.elems[i]? with
  | some el => decide ("show" ∈ el.classes)
  | none => false

/-- Whether an entry satisfies the active-section condition of the callback:
its target is a SECTION with a (truthy) id, intersecting above ratio 0.25. -/
def qualifies (elems : List Elem) (ev : VisEvent) : Bool :=
  match elems[ev.idx]? with
  | some el => sectionHit el ev
  | none => false

/-- The section id carried by the target of an entry. -/
def evSectionId (elems : List Elem) (ev : VisEvent) : String :=
  match elems[ev.idx]? with
  | some el => el.id
  | none => ""

/-- The last entry of a batch, in delivery order, that satisfies the
active-section condition. -/
def lastQualifying (elems : List Elem) (evs : List VisEvent) : Option VisEvent :=
  evs.foldl (fun acc ev => if qualifies elems ev then some ev else acc) none

/-- The handle produced by the observer effect: the configured thresholds and
the indices of observed elements (sections with id, then reveal targets). -/
structure ObserverHandle where
  thresholds : List ℚ
  observedIdxs : List Nat
deriving DecidableEq

/-- Indices matched by `document.querySelectorAll('section[id]')`. -/
def sectionIdxs (p : Page) : List Nat :=
  (List.range p.elems.length).filter fun i =>
    match p.elems[i]? with
    | some el => el.tagName == "SECTION" && el.id != ""
    | none => false

/-- Indices matched by `document.querySelectorAll('[data-reveal]')`. -/
def revealIdxs (p : Page) : List Nat :=
  (List.range p.elems.length).filter fun i =>
    match p.elems[i]? with
    | some el => el.dataReveal
    | none => false

/-- The observer effect body (App.tsx lines 40-64): `new IntersectionObserver`
throws when the constructor is missing from the host environment; otherwise
it registers the sections and reveal targets with thresholds 0.1, 0.25, 0.5
(as exact rationals). -/
def attachObserver (observerAvailable : Bool) (p : Page) :
    Except Unit ObserverHandle :=
  if observerAvailable then
    Except.ok
      { thresholds := [mkRat 1 10, mkRat 1 4, mkRat 1 2],
        observedIdxs := sectionIdxs p ++ revealIdxs p }
  else Except.error ()

/-- A small concrete page used to evaluate the observer logic: a hero
section, a reveal-marked div, and an about section. -/
def samplePage : Page :=
  { elems :=
      [ { tagName := "SECTION", id := "hero", dataReveal := false, classes := ∅ },
        { tagName := "DIV", id := "", dataReveal := true, classes := {"reveal"} },
        { tagName := "SECTION", id := "about", dataReveal := false, classes := ∅ } ],
    active := "hero" }

/-- A concrete page whose single reveal target already carries "show". -/
def shownPage : Page :=
  { elems := [ { tagName := "DIV", id := "", dataReveal := true,
                 classes := {"show"} } ],
    active := "hero" }

/-! ### Helper lemmas -/

theorem applyTheme_storage (m : Bool) (s : ThemeState) :
    (applyTheme m s).storage = some (modeString m) := by
  cases m <;> rfl

theorem modeString_beq_dark (m : Bool) : (modeString m == "dark") = m := by
  cases m <;> decide

theorem modeString_ne_empty (m : Bool) : modeString m ≠ "" := by
  cases m <;> decide

theorem resolveInitial_stored (e : Env) (s : String)
    (hw : e.windowDefined = true) (hs : e.storageWorks = true)
    (hst : e.stored = some s) (hne : s ≠ "") :
    resolveInitial e = Except.ok (s == "dark") := by
  simp [resolveInitial, getItem, hw, hs, hst, hne]

theorem runToggles_storage (n : Nat) :
    ∀ (m : Bool) (s : ThemeState),
      (runToggles n m (applyTheme m s)).2.storage =
        some (modeString (runToggles n m (applyTheme m s)).1) := by
  induction n with
  | zero => intro m s; exact applyTheme_storage m s
  | succ n ih =>
      intro m s
      show (runToggles n (!m) (applyTheme (!m) (applyTheme m s))).2.storage = _
      exact ih (!m) (applyTheme m s)

theorem applyTheme_inv (m : Bool) (s : ThemeState) :
    ThemeInv m (applyTheme m s) := by
  cases m with
  | false =>
      refine ⟨?_, rfl⟩
      simp [applyTheme, classListRemove]
  | true =>
      refine ⟨?_, rfl⟩
      simp [applyTheme, classListAdd]

theorem set_getElem_self {α : Type} (l : List α) :
    ∀ (i : Nat) (a : α), l[i]? = some a → l.set i a = l := by
  induction l with
  | nil => intro i a h; cases i <;> simp at h
  | cons x xs ih =>
      intro i a h
      cases i with
      | zero =>
          simp at h
          simp [List.set, h]
      | succ n =>
          simp at h
          simp [List.set, ih n a h]

theorem lt_length_of_getElem_some {α : Type} {l : List α} {i : Nat} {a : α}
    (h : l[i]? = some a) : i < l.length := by
  by_contra hge
  push_neg at hge
  rw [List.getElem?_eq_none hge] at h
  exact Option.noConfusion h

theorem isShown_processEntry_mono (p : Page) (ev : VisEvent) (i : Nat)
    (h : isShown p i = true) : isShown (processEntry p ev) i = true := by
  cases hx : p.elems[ev.idx]? with
  | none => simpa [processEntry, hx] using h
  | some el =>
      have hlt : ev.idx < p.elems.length := lt_length_of_getElem_some hx
      by_cases hi : ev.idx = i
      · subst hi
        simp only [isShown, hx, decide_eq_true_eq] at h
        simp only [processEntry, hx, isShown, List.getElem?_set_eq_of_lt _ hlt]
        by_cases hr : revealHit el ev <;>
          simp [hr, classListAdd, h, Finset.mem_insert_of_mem]
      · simp only [processEntry, hx, isShown, List.getElem?_set_ne hi]
        simpa [isShown] using h

theorem processEntry_sig (p : Page) (ev : VisEvent) (i : Nat) :
    ((processEntry p ev).elems[i]?).map (fun el => (el.tagName, el.id)) =
      (p.elems[i]?).map (fun el => (el.tagName, el.id)) := by
  cases hx : p.elems[ev.idx]? with
  | none => simp [processEntry, hx]
  | some el =>
      have hlt : ev.idx < p.elems.length := lt_length_of_getElem_some hx
      by_cases hi : ev.idx = i
      · subst hi
        simp only [processEntry, hx, List.getElem?_set_eq_of_lt _ hlt]
        by_cases hr : revealHit el ev <;> simp [hr, hx]
      · simp [processEntry, hx, List.getElem?_set_ne hi]

theorem processEntry_active (p : Page) (ev : VisEvent) :
    (processEntry p ev).active =
      if qualifies p.elems ev then evSectionId p.elems ev else p.active := by
  cases hx : p.elems[ev.idx]? with
  | none => simp [processEntry, qualifies, evSectionId, hx]
  | some el => simp [processEntry, qualifies, evSectionId, hx]

theorem qualifies_processEntry (p : Page) (ev ev' : VisEvent) :
    qualifies (processEntry p ev).elems ev' = qualifies p.elems ev' := by
  have h := processEntry_sig p ev ev'.idx
  cases h1 : (processEntry p ev).elems[ev'.idx]? with
  | none =>
      cases h2 : p.elems[ev'.idx]? with
      | none => simp [qualifies, h1, h2]
      | some el2 => rw [h1, h2] at h; simp at h
  | some el1 =>
      cases h2 : p.elems[ev'.idx]? with
      | none => rw [h1, h2] at h; simp at h
      | some el2 =>
          rw [h1, h2] at h
          simp only [Option.map_some', Option.some.injEq, Prod.mk.injEq] at h
          simp [qualifies, h1, h2, sectionHit, h.1, h.2]

theorem evSectionId_processEntry (p : Page) (ev ev' : VisEvent) :
    evSectionId (processEntry p ev).elems ev' = evSectionId p.elems ev' := by
  have h := processEntry_sig p ev ev'.idx
  cases h1 : (processEntry p ev).elems[ev'.idx]? with
  | none =>
      cases h2 : p.elems[ev'.idx]? with
      | none => simp [evSectionId, h1, h2]
      | some el2 => rw [h1, h2] at h; simp at h
  | some el1 =>
      cases h2 : p.elems[ev'.idx]? with
      | none => rw [h1, h2] at h; simp at h
      | some el2 =>
          rw [h1, h2] at h
          simp only [Option.map_some', Option.some.injEq, Prod.mk.injEq] at h
          simp [evSectionId, h1, h2, h.2]

theorem lastQualifying_processEntry (p : Page) (ev : VisEvent)
    (evs : List VisEvent) :
    lastQualifying (processEntry p ev).elems evs = lastQualifying p.elems evs := by
  unfold lastQualifying
  congr 1
  funext acc e
  rw [qualifies_processEntry]

theorem foldl_last_acc (q : VisEvent → Bool) (evs : List VisEvent) :
    ∀ acc : Option VisEvent,
      evs.foldl (fun a e => if q e then some e else a) acc =
        match evs.foldl (fun a e => if q e then some e else a) none with
        | some e => some e
        | none => acc := by
  induction evs with
  | nil => intro acc; rfl
  | cons e evs ih =>
      intro acc
      rw [List.foldl_cons, ih (if q e then some e else acc)]
      conv_rhs => rw [List.foldl_cons, ih (if q e then some e else none)]
      cases hfold : evs.foldl (fun a e => if q e then some e else a) none with
      | some x => rfl
      | none => by_cases hq : q e <;> simp [hq]

theorem lastQualifying_cons (elems : List Elem) (ev : VisEvent)
    (evs : List VisEvent) :
    lastQualifying elems (ev :: evs) =
      match lastQualifying elems evs with
      | some x => some x
      | none => if qualifies elems ev then some ev else none := by
  unfold lastQualifying
  rw [List.foldl_cons]
  exact foldl_last_acc (qualifies elems) evs _

/-! ### Claim theorems -/

/-- Claim C1, counterexample: with stored value "banana" (malformed) and an
environment preferring dark, the initializer returns light instead of falling
back to the preferred-color-scheme signal (which would give dark). -/
theorem malformed_stored_counterexample :
    resolveInitial ⟨true, true, some "banana", true, true⟩ = Except.ok false ∧
    matchMediaPrefersDark ⟨true, true, some "banana", true, true⟩ =
      Except.ok true :=
  ⟨rfl, rfl⟩

/-- Claim C1 (amended): a malformed non-empty stored theme value is not
treated as absent; the initializer maps any non-empty stored value other than
"dark" directly to light, ignoring the preferred-color-scheme signal. -/
theorem malformed_stored_maps_to_light (e : Env) (s : String)
    (hw : e.windowDefined = true) (hs : e.storageWorks = true)
    (hst : e.stored = some s) (hne : s ≠ "") (hnd : s ≠ "dark") :
    resolveInitial e = Except.ok false := by
  rw [resolveInitial_stored e s hw hs hst hne, beq_eq_false_iff_ne.mpr hnd]

/-- Witness for the amended claim C1 at a concrete environment. -/
theorem malformed_stored_maps_to_light_witness :
    (⟨true, true, some "banana", true, true⟩ : Env).stored = some "banana" ∧
    resolveInitial ⟨true, true, some "banana", true, true⟩ = Except.ok false :=
  ⟨rfl, malformed_stored_maps_to_light ⟨true, true, some "banana", true, true⟩
    "banana" rfl rfl rfl (by decide) (by decide)⟩

/-- Claim C2, counterexample: with window defined but a throwing storage API,
the initializer propagates the exception instead of degrading to light. -/
theorem storage_failure_counterexample :
    resolveInitial ⟨true, false, some "dark", true, false⟩ = Except.error () :=
  rfl

/-- Claim C2 (amended): only the absence of `window` degrades silently to
light; when `window` exists and the storage API throws, both initial
resolution and theme application propagate the failure to the caller. -/
theorem storage_failure_propagates :
    (∀ e : Env, e.windowDefined = false → resolveInitial e = Except.ok false) ∧
    (∀ e : Env, e.windowDefined = true → e.storageWorks = false →
        resolveInitial e = Except.error ()) ∧
    (∀ (m : Bool) (s : ThemeState), applyThemeE false m s = Except.error ()) := by
  refine ⟨fun e h => ?_, fun e h1 h2 => ?_, fun m s => rfl⟩
  · simp [resolveInitial, h]
  · simp [resolveInitial, getItem, h1, h2]

/-- Witness for the amended claim C2 at concrete environments. -/
theorem storage_failure_propagates_witness :
    resolveInitial ⟨false, false, none, false, false⟩ = Except.ok false ∧
    resolveInitial ⟨true, false, none, true, true⟩ = Except.error () ∧
    applyThemeE false true ⟨∅, none⟩ = Except.error () :=
  ⟨storage_failure_propagates.1 ⟨false, false, none, false, false⟩ rfl,
   storage_failure_propagates.2.1 ⟨true, false, none, true, true⟩ rfl rfl,
   storage_failure_propagates.2.2 true ⟨∅, none⟩⟩

/-- Claim C3, counterexample: with no IntersectionObserver in the host, the
observer effect throws (the constructor call fails) rather than attaching
without error as the claim states. -/
theorem observer_missing_counterexample :
    attachObserver false samplePage = Except.error () :=
  rfl

/-- Claim C3 (amended): when the visibility-tracking constructor is missing,
the observer effect THROWS; since no callback is ever registered, no section
is set active and no reveal target is marked shown (a page over which no
batch is processed is unchanged), but the no-throw guarantee fails. -/
theorem observer_missing_attach_throws (p : Page) :
    attachObserver false p = Except.error () ∧ processBatch p [] = p :=
  ⟨rfl, rfl⟩

/-- Claim C4: after any sequence of toggles following the initial apply, a
fresh initial resolution over an environment whose storage holds the value
the run wrote returns exactly the current mode, regardless of the
preferred-color-scheme signal of that environment. -/
theorem stored_choice_wins (n : Nat) (m0 : Bool) (s0 : ThemeState) (e : Env)
    (hw : e.windowDefined = true) (hs : e.storageWorks = true)
    (hst : e.stored = (runToggles n m0 (applyTheme m0 s0)).2.storage) :
    resolveInitial e = Except.ok (runToggles n m0 (applyTheme m0 s0)).1 := by
  rw [runToggles_storage n m0 s0] at hst
  rw [resolveInitial_stored e _ hw hs hst (modeString_ne_empty _),
    modeString_beq_dark]

/-- Witness for claim C4: one toggle from light stores "dark"; a reload in an
environment preferring light still resolves dark. -/
theorem stored_choice_wins_witness :
    (⟨true, true, some "dark", true, false⟩ : Env).stored =
      (runToggles 1 false (applyTheme false ⟨∅, none⟩)).2.storage ∧
    resolveInitial ⟨true, true, some "dark", true, false⟩ =
      Except.ok (runToggles 1 false (applyTheme false ⟨∅, none⟩)).1 :=
  ⟨by decide,
   stored_choice_wins 1 false ⟨∅, none⟩ ⟨true, true, some "dark", true, false⟩
     rfl rfl (by decide)⟩

/-- Claim C5: (1) reveal is monotonic: once an element carries "show", it
still carries it after any batch of visibility events, including events with
ratio 0; (2) re-entering the viewport after being shown is a no-op: an event
on an already-shown non-section reveal target leaves the page unchanged. -/
theorem reveal_monotonic :
    (∀ (p : Page) (evs : List VisEvent) (i : Nat),
        isShown p i = true → isShown (processBatch p evs) i = true) ∧
    (∀ (p : Page) (ev : VisEvent) (el : Elem),
        p.elems[ev.idx]? = some el → "show" ∈ el.classes →
        el.tagName ≠ "SECTION" → processEntry p ev = p) := by
  constructor
  · intro p evs
    induction evs generalizing p with
    | nil => intro i h; exact h
    | cons ev evs ih =>
        intro i h
        exact ih (processEntry p ev) i (isShown_processEntry_mono p ev i h)
  · intro p ev el hget hshow htag
    obtain ⟨es, a⟩ := p
    simp only [processEntry, hget]
    have hrev : (if revealHit el ev then
        { el with classes := classListAdd el.classes "show" } else el) = el := by
      by_cases hr : revealHit el ev
      · obtain ⟨t, i, d, c⟩ := el
        simp only [hr, if_true]
        simp [classListAdd, Finset.insert_eq_self.mpr hshow]
      · simp [hr]
    have hsec : sectionHit el ev = false := by
      simp [sectionHit, htag]
    rw [hrev, hsec, set_getElem_self es ev.idx el hget]
    simp

/-- Witness for claim C5 on a concrete already-shown reveal target: a ratio-0
non-intersecting event keeps it shown, and an intersecting event on it is a
no-op. -/
theorem reveal_monotonic_witness :
    (isShown shownPage 0 = true ∧
      isShown (processBatch shownPage [⟨0, false, 0⟩]) 0 = true) ∧
    (shownPage.elems[0]? = some ⟨"DIV", "", true, {"show"}⟩ ∧
      processEntry shownPage ⟨0, true, 1⟩ = shownPage) :=
  ⟨⟨by decide, reveal_monotonic.1 shownPage [⟨0, false, 0⟩] 0 (by decide)⟩,
   ⟨by decide,
    reveal_monotonic.2 shownPage ⟨0, true, 1⟩ ⟨"DIV", "", true, {"show"}⟩
      (by decide) (by decide) (by decide)⟩⟩

/-- Claim C6: processing a delivered batch in order sets the active section
to the id of the last entry in delivery order whose target is a section and
which is intersecting above ratio 0.25; if no entry of the batch qualifies,
the active section is unchanged. -/
theorem active_section_last_qualifying (evs : List VisEvent) :
    ∀ p : Page,
      (processBatch p evs).active =
        match lastQualifying p.elems evs with
        | some ev => evSectionId p.elems ev
        | none => p.active := by
  induction evs with
  | nil => intro p; rfl
  | cons ev evs ih =>
      intro p
      show (processBatch (processEntry p ev) evs).active = _
      rw [ih (processEntry p ev), lastQualifying_processEntry,
        lastQualifying_cons]
      simp only [evSectionId_processEntry, processEntry_active]
      cases hl : lastQualifying p.elems evs with
      | some x => rfl
      | none => by_cases hq : qualifies p.elems ev <;> simp [hq]

/-- Claim C7: for each mode, applying it (which writes the mode string to
storage) followed by a fresh initial resolution over an environment whose
storage holds that written value returns the same mode. -/
theorem apply_resolve_roundtrip (m : Bool) (s : ThemeState) (e : Env)
    (hw : e.windowDefined = true) (hs : e.storageWorks = true)
    (hst : e.stored = (applyTheme m s).storage) :
    resolveInitial e = Except.ok m := by
  rw [applyTheme_storage] at hst
  rw [resolveInitial_stored e _ hw hs hst (modeString_ne_empty m),
    modeString_beq_dark]

/-- Witness for claim C7: apply light, reload in an environment preferring
dark, and still resolve light. -/
theorem apply_resolve_roundtrip_witness :
    (⟨true, true, some "light", true, true⟩ : Env).stored =
      (applyTheme false ⟨∅, none⟩).storage ∧
    resolveInitial ⟨true, true, some "light", true, true⟩ =
      Except.ok false :=
  ⟨by decide,
   apply_resolve_roundtrip false ⟨∅, none⟩ ⟨true, true, some "light", true, true⟩
     rfl rfl (by decide)⟩

/-- Claim C8: from the initial apply of the resolved mode onward, and after
every toggle, the document root carries the "dark" class iff the mode is
dark, and storage holds the string for the current mode. -/
theorem theme_invariant_holds (n : Nat) :
    ∀ (m0 : Bool) (s0 : ThemeState),
      ThemeInv (runToggles n m0 (applyTheme m0 s0)).1
        (runToggles n m0 (applyTheme m0 s0)).2 := by
  induction n with
  | zero => intro m s; exact applyTheme_inv m s
  | succ n ih => intro m s; exact ih (!m) (applyTheme m s)

/-- Claim C9: applying the same mode twice in succession yields exactly the
same root-class and storage state as applying it once. -/
theorem applyTheme_idempotent (m : Bool) (s : ThemeState) :
    applyTheme m (applyTheme m s) = applyTheme m s := by
  cases m <;>
    simp [applyTheme, classListAdd, classListRemove, Finset.insert_idem,
      Finset.erase_idem]

/-- Claim C10, counterexample: starting from a state with empty storage and
light mode, two toggles restore the mode but change the stored value from
absent to "light", so the state is not restored. -/
theorem toggle_involution_counterexample :
    (runToggles 2 false ⟨∅, none⟩).1 = false ∧
    (runToggles 2 false ⟨∅, none⟩).2 ≠ (⟨∅, none⟩ : ThemeState) := by
  decide

/-- Claim C10 (amended): two toggles always restore the mode; and from any
state satisfying the theme invariant (as every state reached after an apply
does), two toggles restore the root classes and the stored value exactly. -/
theorem toggle_involution_on_invariant (m : Bool) (s : ThemeState)
    (h : ThemeInv m s) :
    (runToggles 2 m s).1 = m ∧ (runToggles 2 m s).2 = s := by
  obtain ⟨cs, st⟩ := s
  obtain ⟨hmem, hst⟩ := h
  cases m with
  | true =>
      have hm : "dark" ∈ cs := hmem.mpr rfl
      simp only [modeString, if_true] at hst
      refine ⟨rfl, ?_⟩
      show applyTheme true (applyTheme false ⟨cs, st⟩) = ⟨cs, st⟩
      simp [applyTheme, classListAdd, classListRemove,
        Finset.insert_erase hm, hst]
  | false =>
      have hm : "dark" ∉ cs := fun hx => by simpa using hmem.mp hx
      simp only [modeString, if_false] at hst
      refine ⟨rfl, ?_⟩
      show applyTheme false (applyTheme true ⟨cs, st⟩) = ⟨cs, st⟩
      simp [applyTheme, classListAdd, classListRemove,
        Finset.erase_insert hm, hst]

/-- Witness for the amended claim C10 on a concrete invariant-satisfying
state. -/
theorem toggle_involution_on_invariant_witness :
    ThemeInv true ⟨{"dark"}, some "dark"⟩ ∧
    ((runToggles 2 true ⟨{"dark"}, some "dark"⟩).1 = true ∧
      (runToggles 2 true ⟨{"dark"}, some "dark"⟩).2 =
        (⟨{"dark"}, some "dark"⟩ : ThemeState)) :=
  ⟨by decide,
   toggle_involution_on_invariant true ⟨{"dark"}, some "dark"⟩ (by decide)⟩
